import Mathlib

/-!
Verification of the hybrid field-detection core of document-ai-fastapi.

Shallow embedding of the Python modules under `src/workers/`:
`detection_models.py`, `ensemble_merger.py`, `text_overlap_filter.py`,
`geometric_detector.py`, `pdf_structure_detector.py` (coordinate conversion),
`vision_detector_adapter.py` (coordinate conversion), and
`hybrid_detection_pipeline.py` (fault isolation).

Python floats are modelled as rationals, Python ints as integers, fallible
constructors (`__post_init__` raising `ValueError`) as `Except String`,
and functions that may return `None` as `Option`.
-/

namespace DocAI

/-! detection_models.py : `DetectionSource` -/

inductive DetectionSource
  | ACROFORM
  | VISION
  | GEOMETRIC
  | STRUCTURE
  | MERGED
  deriving DecidableEq

/-- Embeds `DetectionSource.priority` (detection_models.py lines 45-55):
the `priority_map` as written in the source. -/
def DetectionSource.priority : DetectionSource → Nat
  | .ACROFORM => 1
  | .VISION => 2
  | .GEOMETRIC => 3
  | .STRUCTURE => 4
  | .MERGED => 5

/-- The str value of each enum member. -/
def DetectionSource.value : DetectionSource → String
  | .ACROFORM => "acroform"
  | .VISION => "vision"
  | .GEOMETRIC => "geometric"
  | .STRUCTURE => "structure"
  | .MERGED => "merged"

/-- Embeds the enum call `DetectionSource(value)`: `none` models the
`ValueError` Python raises on an unknown value. -/
def DetectionSource.ofValue (s : String) : Option DetectionSource :=
  if s = "acroform" then some .ACROFORM
  else if s = "vision" then some .VISION
  else if s = "geometric" then some .GEOMETRIC
  else if s = "structure" then some .STRUCTURE
  else if s = "merged" then some .MERGED
  else none

/-! detection_models.py : `FieldType` -/

inductive FieldType
  | TEXT
  | MULTILINE
  | CHECKBOX
  | DATE
  | NUMBER
  | SIGNATURE
  | UNKNOWN
  deriving DecidableEq

/-- The str value of each enum member. -/
def FieldType.value : FieldType → String
  | .TEXT => "text"
  | .MULTILINE => "multiline"
  | .CHECKBOX => "checkbox"
  | .DATE => "date"
  | .NUMBER => "number"
  | .SIGNATURE => "signature"
  | .UNKNOWN => "unknown"

/-- Embeds the enum call `FieldType(value)`: `none` models the `ValueError`
Python raises on an unknown value. -/
def FieldType.ofValue (s : String) : Option FieldType :=
  if s = "text" then some .TEXT
  else if s = "multiline" then some .MULTILINE
  else if s = "checkbox" then some .CHECKBOX
  else if s = "date" then some .DATE
  else if s = "number" then some .NUMBER
  else if s = "signature" then some .SIGNATURE
  else if s = "unknown" then some .UNKNOWN
  else none

/-! detection_models.py : `BBox` -/

/-- The `BBox` dataclass fields (detection_models.py lines 73-96). The
validation of `__post_init__` lives in `mkBBox`. -/
structure BBox where
  x : ℚ
  y : ℚ
  width : ℚ
  height : ℚ
  deriving DecidableEq

/-- Embeds `BBox.__post_init__` (detection_models.py lines 97-110): the
constructor together with the validation it runs; `.error` models the raised
`ValueError`. -/
def mkBBox (x y width height : ℚ) : Except String BBox :=
  if ¬ (0 ≤ x ∧ x ≤ 1) then .error "x must be in [0, 1]"
  else if ¬ (0 ≤ y ∧ y ≤ 1) then .error "y must be in [0, 1]"
  else if ¬ (0 ≤ width ∧ width ≤ 1) then .error "width must be in [0, 1]"
  else if ¬ (0 ≤ height ∧ height ≤ 1) then .error "height must be in [0, 1]"
  else if x + width > 1 then .error "x + width must be <= 1.0"
  else if y + height > 1 then .error "y + height must be <= 1.0"
  else .ok ⟨x, y, width, height⟩

/-- The invariant `BBox.__post_init__` accepts, as a predicate. -/
def BBox.Valid (b : BBox) : Prop :=
  0 ≤ b.x ∧ b.x ≤ 1 ∧ 0 ≤ b.y ∧ b.y ≤ 1 ∧
  0 ≤ b.width ∧ b.width ≤ 1 ∧ 0 ≤ b.height ∧ b.height ≤ 1 ∧
  b.x + b.width ≤ 1 ∧ b.y + b.height ≤ 1

instance (b : BBox) : Decidable b.Valid := by
  unfold BBox.Valid; infer_instance

/-- Embeds `BBox.to_rect`. -/
def BBox.to_rect (b : BBox) : ℚ × ℚ × ℚ × ℚ :=
  (b.x, b.y, b.x + b.width, b.y + b.height)

/-- Embeds `BBox.area`. -/
def BBox.area (b : BBox) : ℚ :=
  b.width * b.height

/-- Embeds `BBox.center`. -/
def BBox.center (b : BBox) : ℚ × ℚ :=
  (b.x + b.width / 2, b.y + b.height / 2)

/-- Embeds `BBox.intersects` (detection_models.py lines 147-168). -/
def BBox.intersects (a b : BBox) : Bool :=
  if a.x + a.width ≤ b.x ∨ b.x + b.width ≤ a.x then false
  else if a.y + a.height ≤ b.y ∨ b.y + b.height ≤ a.y then false
  else true

/-- Embeds `BBox.intersection_area` (detection_models.py lines 170-195). -/
def BBox.intersection_area (a b : BBox) : ℚ :=
  if ¬ a.intersects b then 0
  else
    let x_min := max a.x b.x
    let y_min := max a.y b.y
    let x_max := min (a.x + a.width) (b.x + b.width)
    let y_max := min (a.y + a.height) (b.y + b.height)
    (x_max - x_min) * (y_max - y_min)

/-- Modelled from the spec: a method `BBox.iou` is called by
`EnsembleMerger._deduplicate_by_iou` (ensemble_merger.py line 182) and by the
repository's tests (test_ensemble_merger.py line 718), but no `iou` method is
defined anywhere under `src/`. Spec section 3 defines
`iou(other) = intersection_area / (a.area + b.area - intersection_area)` and
section 4.1 adds that `iou` returns 0 when the union area is 0. -/
def BBox.iou (a b : BBox) : ℚ :=
  let inter := a.intersection_area b
  let union := a.area + b.area - inter
  if union = 0 then 0 else inter / union

/-- Embeds `BBox.from_rect`. -/
def BBox.from_rect (x_min y_min x_max y_max : ℚ) : Except String BBox :=
  mkBBox x_min y_min (x_max - x_min) (y_max - y_min)

/-- Embeds `BBox.from_pixels`. -/
def BBox.from_pixels (x_px y_px width_px height_px page_width_px page_height_px : ℚ) :
    Except String BBox :=
  mkBBox (x_px / page_width_px) (y_px / page_height_px)
    (width_px / page_width_px) (height_px / page_height_px)

/-! detection_models.py : `FieldDetection` -/

/-- The `FieldDetection` dataclass fields (detection_models.py lines 250-279). -/
structure FieldDetection where
  page_index : ℤ
  bbox : BBox
  field_type : FieldType
  label : String
  confidence : ℚ
  source : DetectionSource
  template_key : Option String := none
  deriving DecidableEq

/-- Embeds `FieldDetection.__post_init__` (detection_models.py lines 281-292):
the value checks; the `isinstance` checks hold by typing in this embedding. -/
def mkFieldDetection (page_index : ℤ) (bbox : BBox) (field_type : FieldType)
    (label : String) (confidence : ℚ) (source : DetectionSource)
    (template_key : Option String) : Except String FieldDetection :=
  if page_index < 0 then .error "page_index must be >= 0"
  else if ¬ (0 ≤ confidence ∧ confidence ≤ 1) then .error "confidence must be in [0, 1]"
  else .ok ⟨page_index, bbox, field_type, label, confidence, source, template_key⟩

/-- The invariant `FieldDetection.__post_init__` accepts, as a predicate. -/
def FieldDetection.Valid (d : FieldDetection) : Prop :=
  0 ≤ d.page_index ∧ 0 ≤ d.confidence ∧ d.confidence ≤ 1

instance (d : FieldDetection) : Decidable d.Valid := by
  unfold FieldDetection.Valid; infer_instance

/-- The dictionary produced by `FieldDetection.to_dict` (detection_models.py
lines 294-314), with the nested bbox dict flattened into four keys. -/
structure DetectionDict where
  page_index : ℤ
  bbox_x : ℚ
  bbox_y : ℚ
  bbox_width : ℚ
  bbox_height : ℚ
  field_type : String
  label : String
  confidence : ℚ
  source : String
  template_key : Option String
  deriving DecidableEq

/-- Embeds `FieldDetection.to_dict`. -/
def FieldDetection.to_dict (d : FieldDetection) : DetectionDict :=
  ⟨d.page_index, d.bbox.x, d.bbox.y, d.bbox.width, d.bbox.height,
   d.field_type.value, d.label, d.confidence, d.source.value, d.template_key⟩

/-- Embeds `FieldDetection.from_dict` (detection_models.py lines 316-341):
`BBox(...)` runs first (argument order), then `FieldType(...)`,
`DetectionSource(...)`, and finally `FieldDetection.__post_init__`. -/
def FieldDetection.from_dict (data : DetectionDict) : Except String FieldDetection :=
  match mkBBox data.bbox_x data.bbox_y data.bbox_width data.bbox_height with
  | .error e => .error e
  | .ok bbox =>
    match FieldType.ofValue data.field_type with
    | none => .error "invalid field_type value"
    | some ft =>
      match DetectionSource.ofValue data.source with
      | none => .error "invalid source value"
      | some src =>
        mkFieldDetection data.page_index bbox ft data.label data.confidence src
          data.template_key

/-! ensemble_merger.py : `EnsembleMerger` -/

/-- Embeds `EnsembleMerger.DEFAULT_IOU_THRESHOLD`. -/
def DEFAULT_IOU_THRESHOLD : ℚ := 0.30

/-- The `generic_patterns` list of `EnsembleMerger._is_generic_label`. -/
def generic_patterns : List String :=
  ["Field ", "Text Field ", "Checkbox ", "Signature ", "Widget ", "XObject Field "]

/-- Embeds Python `str.startswith`, written on the character list of the
string. -/
def strStartsWith (s pattern : String) : Bool :=
  decide (s.data.take pattern.data.length = pattern.data)

/-- Embeds the Python slice `s[n:]` (by characters), written on the character
list of the string. -/
def strDrop (s : String) (n : ℕ) : String :=
  ⟨s.data.drop n⟩

/-- Embeds Python `str.isdigit` restricted to ASCII digit strings: true iff
the string is non-empty and every character is a digit. -/
def strIsDigit (s : String) : Bool :=
  decide (s.data ≠ []) && s.data.all Char.isDigit

/-- Embeds `EnsembleMerger._is_generic_label` (ensemble_merger.py lines
299-328): `not label` is true in Python only for the empty string, then each
pattern is tried as a prefix whose remainder must satisfy `isdigit`. -/
def is_generic_label (label : String) : Bool :=
  if label = "" then true
  else
    generic_patterns.any fun pattern =>
      strStartsWith label pattern && strIsDigit (strDrop label pattern.data.length)

/-- Embeds `EnsembleMerger._is_checkbox_sized` (ensemble_merger.py lines
330-349). -/
def is_checkbox_sized (bbox : BBox) : Bool :=
  if bbox.width > 0.05 ∨ bbox.height > 0.05 then false
  else
    let aspect_ratio := if bbox.height > 0 then bbox.width / bbox.height else 0
    if aspect_ratio < 0.5 ∨ aspect_ratio > 2.0 then false
    else true

/-- Embeds `EnsembleMerger._resolve_type_conflict` (ensemble_merger.py lines
248-297): the sequence of early returns flattened into an if-chain. -/
def resolve_type_conflict (primary secondary : FieldDetection) : FieldDetection :=
  if primary.field_type = secondary.field_type then primary
  else if secondary.field_type = .CHECKBOX ∧ primary.field_type = .TEXT ∧
      is_checkbox_sized primary.bbox then
    { primary with field_type := .CHECKBOX }
  else if secondary.source = .GEOMETRIC ∧ secondary.field_type = .SIGNATURE ∧
      primary.field_type = .TEXT then
    { primary with field_type := .SIGNATURE }
  else primary

/-- Embeds `EnsembleMerger._resolve_conflict` (ensemble_merger.py lines
206-246). -/
def resolve_conflict (higher_priority lower_priority : FieldDetection) : FieldDetection :=
  let result := higher_priority
  let result :=
    if is_generic_label higher_priority.label ∧ ¬ is_generic_label lower_priority.label
    then { result with label := lower_priority.label }
    else result
  let result := resolve_type_conflict result lower_priority
  if lower_priority.confidence > result.confidence
  then { result with confidence := lower_priority.confidence }
  else result

/-- Helper embedding the inner loop of `EnsembleMerger._deduplicate_by_iou`:
find the first already-kept detection on the same page with IoU above the
threshold and replace it in place by the resolved conflict (`kept[idx] =
resolved`), or report `none` when the candidate overlaps nothing. -/
def merge_into (iou_threshold : ℚ) (detection : FieldDetection) :
    List FieldDetection → Option (List FieldDetection)
  | [] => none
  | existing :: rest =>
    if detection.page_index = existing.page_index ∧
        iou_threshold < detection.bbox.iou existing.bbox then
      some (resolve_conflict existing detection :: rest)
    else
      (merge_into iou_threshold detection rest).map (existing :: ·)

/-- One iteration of the `for detection in detections` loop of
`EnsembleMerger._deduplicate_by_iou`: keep (append) the candidate when it
overlaps no kept detection, otherwise merge it into the first overlap. -/
def dedup_step (iou_threshold : ℚ) (kept : List FieldDetection)
    (detection : FieldDetection) : List FieldDetection :=
  (merge_into iou_threshold detection kept).getD (kept ++ [detection])

/-- Embeds `EnsembleMerger._deduplicate_by_iou` (ensemble_merger.py lines
149-204). -/
def deduplicate_by_iou (iou_threshold : ℚ) (detections : List FieldDetection) :
    List FieldDetection :=
  detections.foldl (dedup_step iou_threshold) []

/-- Embeds `all_detections.sort(key=lambda d: d.source.priority)`
(ensemble_merger.py line 136). Python `list.sort` is stable, and the keys
range over 1..5, so the sorted list is exactly the concatenation of the
priority classes in ascending key order with the original order kept inside
each class. -/
def sort_by_priority (detections : List FieldDetection) : List FieldDetection :=
  ((List.range 6).map fun p =>
    detections.filter fun d => d.source.priority == p).flatten

/-- The sort key comparison of `EnsembleMerger._sort_detections`
(ensemble_merger.py lines 351-376): lexicographic on
`(page_index, -(bbox.y + bbox.height), bbox.x)`. -/
def sort_key_lt (a b : FieldDetection) : Bool :=
  decide (a.page_index < b.page_index ∨
    (a.page_index = b.page_index ∧
      (-(a.bbox.y + a.bbox.height) < -(b.bbox.y + b.bbox.height) ∨
        (-(a.bbox.y + a.bbox.height) = -(b.bbox.y + b.bbox.height) ∧
          a.bbox.x < b.bbox.x))))

/-- Stable insertion used to embed Python's stable `sorted`: an element passes
over strictly smaller keys only, so equal keys keep their original order. -/
def insert_sorted (d : FieldDetection) : List FieldDetection → List FieldDetection
  | [] => [d]
  | e :: rest =>
    if sort_key_lt e d then e :: insert_sorted d rest
    else d :: e :: rest

/-- Embeds `EnsembleMerger._sort_detections`: stable sort by
`(page_index asc, -(y + height) asc, x asc)`. -/
def sort_detections (detections : List FieldDetection) : List FieldDetection :=
  detections.foldr insert_sorted []

/-- Embeds `EnsembleMerger.merge` (ensemble_merger.py lines 102-147). `None`
inputs are already-empty lists in this embedding. -/
def merge (iou_threshold : ℚ)
    (pdf_structure_fields geometric_fields vision_fields : List FieldDetection) :
    List FieldDetection :=
  if pdf_structure_fields = [] ∧ geometric_fields = [] ∧ vision_fields = [] then []
  else
    let all_detections := pdf_structure_fields ++ geometric_fields ++ vision_fields
    let all_detections := sort_by_priority all_detections
    let merged_detections := deduplicate_by_iou iou_threshold all_detections
    sort_detections merged_detections

/-- Embeds `EnsembleMerger.merge_with_acroform` (ensemble_merger.py lines
378-405). -/
def merge_with_acroform (iou_threshold : ℚ)
    (acroform_fields other_fields : List FieldDetection) : List FieldDetection :=
  if acroform_fields = [] then other_fields
  else if other_fields = [] then acroform_fields
  else deduplicate_by_iou iou_threshold (sort_by_priority (acroform_fields ++ other_fields))

/-! text_overlap_filter.py : `TextOverlapFilter` -/

/-- Embeds the threshold clamping of `TextOverlapFilter.__init__`
(text_overlap_filter.py lines 76-84). -/
def clamp_threshold (overlap_threshold : ℚ) : ℚ :=
  if overlap_threshold < 0 then 0
  else if overlap_threshold > 1 then 1
  else overlap_threshold

/-- Embeds `TextOverlapFilter.calculate_text_overlap` (text_overlap_filter.py
lines 257-295). -/
def calculate_text_overlap (field_bbox : BBox) (text_regions : List BBox) : ℚ :=
  if field_bbox.area ≤ 0 then 0
  else if text_regions = [] then 0
  else
    let total_intersection := (text_regions.map fun t => field_bbox.intersection_area t).sum
    min 1 (total_intersection / field_bbox.area)

/-- Embeds `TextOverlapFilter.filter_fields` (text_overlap_filter.py lines
91-150) on the success path (PyMuPDF available, text extraction succeeded):
the per-page dict of text regions is the function `text_regions_by_page`,
whose default for an absent page is the empty list, and the threshold is the
clamped one stored by `__init__`. -/
def filter_fields (overlap_threshold : ℚ) (fields : List FieldDetection)
    (text_regions_by_page : ℤ → List BBox) : List FieldDetection :=
  fields.filter fun field =>
    decide (calculate_text_overlap field.bbox (text_regions_by_page field.page_index) <
      clamp_threshold overlap_threshold)

/-! geometric_detector.py : `GeometricDetector` -/

/-- The `ContourCandidate` dataclass (geometric_detector.py lines 35-52). -/
structure ContourCandidate where
  x : ℤ
  y : ℤ
  w : ℤ
  h : ℤ
  area : ℚ
  aspect_ratio : ℚ
  confidence : ℚ := 0.8
  deriving DecidableEq

/-- Classification thresholds set in `GeometricDetector.__init__`
(geometric_detector.py lines 102-107). -/
def checkbox_max_area_ratio : ℚ := 0.005

/-- Lower end of `checkbox_aspect_ratio_range`. -/
def checkbox_aspect_lo : ℚ := 0.5

/-- Upper end of `checkbox_aspect_ratio_range`. -/
def checkbox_aspect_hi : ℚ := 2.0

/-- `signature_min_aspect_ratio`. -/
def signature_min_aspect : ℚ := 8.0

/-- `signature_max_height_ratio`. -/
def signature_max_height : ℚ := 0.02

/-- Lower end of `text_aspect_ratio_range`. -/
def text_aspect_lo : ℚ := 2.0

/-- Upper end of `text_aspect_ratio_range`. -/
def text_aspect_hi : ℚ := 8.0

/-- Embeds `GeometricDetector._classify_field_type` (geometric_detector.py
lines 374-410). -/
def classify_field_type (candidate : ContourCandidate) (img_width img_height : ℤ) :
    FieldType :=
  let page_area : ℚ := (img_width : ℚ) * (img_height : ℚ)
  let area_ratio := candidate.area / page_area
  let height_ratio := (candidate.h : ℚ) / (img_height : ℚ)
  if area_ratio < checkbox_max_area_ratio ∧
      checkbox_aspect_lo ≤ candidate.aspect_ratio ∧
      candidate.aspect_ratio ≤ checkbox_aspect_hi then
    .CHECKBOX
  else if signature_min_aspect ≤ candidate.aspect_ratio ∧
      height_ratio ≤ signature_max_height then
    .SIGNATURE
  else if text_aspect_lo ≤ candidate.aspect_ratio ∧
      candidate.aspect_ratio ≤ text_aspect_hi then
    .TEXT
  else
    .TEXT

/-- Embeds `GeometricDetector._convert_to_normalized_bbox`
(geometric_detector.py lines 432-480): pixel rect with top-left origin to
normalized bottom-left BBox, all four values clamped, then the `BBox`
constructor (which validates). -/
def convert_to_normalized_bbox (candidate : ContourCandidate)
    (img_width img_height : ℤ) : Except String BBox :=
  let x_norm := (candidate.x : ℚ) / (img_width : ℚ)
  let width_norm := (candidate.w : ℚ) / (img_width : ℚ)
  let height_norm := (candidate.h : ℚ) / (img_height : ℚ)
  let y_opencv_bottom := (candidate.y : ℚ) + (candidate.h : ℚ)
  let y_norm := 1 - y_opencv_bottom / (img_height : ℚ)
  let x_norm := max 0 (min 1 x_norm)
  let y_norm := max 0 (min 1 y_norm)
  let width_norm := max 0 (min (1 - x_norm) width_norm)
  let height_norm := max 0 (min (1 - y_norm) height_norm)
  mkBBox x_norm y_norm width_norm height_norm

/-! pdf_structure_detector.py : coordinate conversion -/

/-- Embeds `PDFStructureDetector._convert_pdf_rect_to_bbox`
(pdf_structure_detector.py lines 636-687). The PyMuPDF rect is given by its
corners `(x0, y0, x1, y1)` in top-left page coordinates, so `rect.width =
x1 - x0`, `rect.height = y1 - y0` and `rect.y1` is the bottom edge; `none`
models both the guard returns and the `except` branch. -/
def convert_pdf_rect_to_bbox (x0 y0 x1 y1 page_width page_height : ℚ) : Option BBox :=
  if page_width ≤ 0 ∨ page_height ≤ 0 then none
  else
    let x := x0 / page_width
    let width := (x1 - x0) / page_width
    let y := 1 - y1 / page_height
    let height := (y1 - y0) / page_height
    let x := max 0 (min 1 x)
    let y := max 0 (min 1 y)
    let width := max 0 (min (1 - x) width)
    let height := max 0 (min (1 - y) height)
    if width < 0.001 ∨ height < 0.001 then none
    else (mkBBox x y width height).toOption

/-! vision_detector_adapter.py : conversion of one vision field -/

/-- Embeds `VisionDetectorAdapter.FIELD_TYPE_MAP` (vision_detector_adapter.py
lines 77-85) as `dict.get` with the `FieldType.UNKNOWN` default. -/
def FIELD_TYPE_MAP (s : String) : FieldType :=
  if s = "text" then .TEXT
  else if s = "textarea" then .MULTILINE
  else if s = "checkbox" then .CHECKBOX
  else if s = "signature" then .SIGNATURE
  else if s = "date" then .DATE
  else if s = "number" then .NUMBER
  else if s = "unknown" then .UNKNOWN
  else .UNKNOWN

/-- One parsed field object of the vision model's JSON reply, as read by
`VisionDetectorAdapter._convert_to_field_detection`: the `bbox` array and the
optional `type`, `label` and `id` keys. -/
structure VisionField where
  bbox : List ℚ
  ftype : Option String
  label : Option String
  id : Option String
  deriving DecidableEq

/-- Embeds `VisionDetectorAdapter._convert_to_field_detection`
(vision_detector_adapter.py lines 282-329): `none` models both the early
returns and the `except` branch around the constructors. -/
def convert_to_field_detection (field_data : VisionField) (page_index : ℤ) :
    Option FieldDetection :=
  match field_data.bbox with
  | [x_min, y_min, x_max, y_max] =>
    let x := max 0 (min 1 (x_min / 1000))
    let y := max 0 (min 1 (y_min / 1000))
    let width := max 0 (min (1 - x) ((x_max - x_min) / 1000))
    let height := max 0 (min (1 - y) ((y_max - y_min) / 1000))
    if width < 0.001 ∨ height < 0.001 then none
    else
      (mkBBox x y width height).toOption.bind fun bbox =>
        let field_type := FIELD_TYPE_MAP ((field_data.ftype.getD "unknown").toLower)
        let label := field_data.label.getD "Unnamed Field"
        let label := if label.length > 255 then label.take 255 else label
        (mkFieldDetection page_index bbox field_type label 0.85 .VISION
          field_data.id).toOption
  | _ => none

/-! hybrid_detection_pipeline.py : `HybridDetectionPipeline` -/

/-- The outcome of calling one detector: the list it returned, or the
exception it raised, modelled as `Except`. -/
abbrev DetectorResult := Except String (List FieldDetection)

/-- Embeds `HybridDetectionPipeline._run_pdf_structure_detector`
(hybrid_detection_pipeline.py lines 192-220): on exception, log and return
the empty list. -/
def run_pdf_structure_detector (result : DetectorResult) : List FieldDetection :=
  match result with
  | .ok fields => fields
  | .error _ => []

/-- Embeds `HybridDetectionPipeline._run_vision_detector`
(hybrid_detection_pipeline.py lines 276-312); a `None` vision detector is the
`.ok []` outcome. -/
def run_vision_detector (result : DetectorResult) : List FieldDetection :=
  match result with
  | .ok fields => fields
  | .error _ => []

/-- Embeds `HybridDetectionPipeline._run_geometric_detector`
(hybrid_detection_pipeline.py lines 222-274): the outer `Except` models a
failure of rendering (or of the whole pass), the inner one the per-page
`detect_page_fields` call whose exception is swallowed by `continue`. -/
def run_geometric_detector (pages : Except String (List DetectorResult)) :
    List FieldDetection :=
  match pages with
  | .error _ => []
  | .ok page_results =>
    (page_results.map fun r =>
      match r with
      | .ok fields => fields
      | .error _ => []).flatten

/-- Embeds `HybridDetectionPipeline.detect_fields_for_pdf`
(hybrid_detection_pipeline.py lines 135-190) over the injected detector
outcomes: run the three wrapped detectors, then merge. -/
def detect_fields_for_pdf (iou_threshold : ℚ)
    (structure_result : DetectorResult)
    (geometric_pages : Except String (List DetectorResult))
    (vision_result : DetectorResult) : List FieldDetection :=
  let pdf_structure_fields := run_pdf_structure_detector structure_result
  let geometric_fields := run_geometric_detector geometric_pages
  let vision_fields := run_vision_detector vision_result
  merge iou_threshold pdf_structure_fields geometric_fields vision_fields

/-! Helper lemmas -/

/-- Characterization of the `BBox` constructor: it succeeds exactly on the
coordinate ranges `__post_init__` checks, and then returns the box as given. -/
theorem mkBBox_ok_iff (x y width height : ℚ) (b : BBox) :
    mkBBox x y width height = .ok b ↔
      ((0 ≤ x ∧ x ≤ 1) ∧ (0 ≤ y ∧ y ≤ 1) ∧ (0 ≤ width ∧ width ≤ 1) ∧
        (0 ≤ height ∧ height ≤ 1) ∧ x + width ≤ 1 ∧ y + height ≤ 1 ∧
        b = ⟨x, y, width, height⟩) := by
  unfold mkBBox
  split_ifs with h1 h2 h3 h4 h5 h6 <;> simp_all [not_lt, eq_comm]

/-- Any box the `BBox` constructor returns satisfies the invariant. -/
theorem mkBBox_valid (x y width height : ℚ) (b : BBox)
    (hb : mkBBox x y width height = .ok b) : b.Valid := by
  rcases (mkBBox_ok_iff x y width height b).mp hb with ⟨h1, h2, h3, h4, h5, h6, rfl⟩
  exact ⟨h1.1, h1.2, h2.1, h2.2, h3.1, h3.2, h4.1, h4.2, h5, h6⟩

/-- The `BBox` constructor succeeds on coordinates satisfying the invariant. -/
theorem mkBBox_ok_of_valid (x y width height : ℚ)
    (hv : BBox.Valid ⟨x, y, width, height⟩) :
    mkBBox x y width height = .ok ⟨x, y, width, height⟩ := by
  obtain ⟨hx0, hx1, hy0, hy1, hw0, hw1, hh0, hh1, hxw, hyh⟩ := hv
  exact (mkBBox_ok_iff x y width height _).mpr
    ⟨⟨hx0, hx1⟩, ⟨hy0, hy1⟩, ⟨hw0, hw1⟩, ⟨hh0, hh1⟩, hxw, hyh, rfl⟩

/-- The `FieldDetection` constructor passes its `bbox` argument through. -/
theorem mkFieldDetection_ok_bbox (page_index : ℤ) (bbox : BBox) (field_type : FieldType)
    (label : String) (confidence : ℚ) (source : DetectionSource)
    (template_key : Option String) (d : FieldDetection)
    (hd : mkFieldDetection page_index bbox field_type label confidence source
      template_key = .ok d) : d.bbox = bbox := by
  unfold mkFieldDetection at hd
  split_ifs at hd
  cases hd
  rfl

/-- Characterization of `BBox.intersects`: true exactly when the strict
overlap inequalities of both axes hold. -/
theorem intersects_iff (a b : BBox) :
    a.intersects b = true ↔
      (b.x < a.x + a.width ∧ a.x < b.x + b.width ∧
        b.y < a.y + a.height ∧ a.y < b.y + b.height) := by
  unfold BBox.intersects
  split_ifs with h1 h2
  · simp only [Bool.false_eq_true, false_iff]
    rintro ⟨r1, r2, r3, r4⟩
    rcases h1 with h | h <;> linarith
  · simp only [Bool.false_eq_true, false_iff]
    rintro ⟨r1, r2, r3, r4⟩
    rcases h2 with h | h <;> linarith
  · push_neg at h1 h2
    simp only [true_iff]
    exact ⟨h1.1, h1.2, h2.1, h2.2⟩

/-- For boxes with nonnegative dimensions, `intersection_area` is
nonnegative. -/
theorem intersection_area_nonneg (a b : BBox) (haw : 0 ≤ a.width) (hah : 0 ≤ a.height)
    (hbw : 0 ≤ b.width) (hbh : 0 ≤ b.height) : 0 ≤ a.intersection_area b := by
  unfold BBox.intersection_area
  by_cases hi : a.intersects b = true
  · rw [if_neg (not_not_intro hi)]
    rcases (intersects_iff a b).mp hi with ⟨h1, h2, h3, h4⟩
    have hx : max a.x b.x ≤ min (a.x + a.width) (b.x + b.width) := by
      simp only [le_min_iff, max_le_iff]
      exact ⟨⟨by linarith, h1.le⟩, ⟨h2.le, by linarith⟩⟩
    have hy : max a.y b.y ≤ min (a.y + a.height) (b.y + b.height) := by
      simp only [le_min_iff, max_le_iff]
      exact ⟨⟨by linarith, h3.le⟩, ⟨h4.le, by linarith⟩⟩
    exact mul_nonneg (sub_nonneg.mpr hx) (sub_nonneg.mpr hy)
  · rw [if_pos hi]

/-- For a field box and text regions with nonnegative dimensions, the overlap
ratio is nonnegative. -/
theorem calculate_text_overlap_nonneg (field_bbox : BBox) (text_regions : List BBox)
    (hfw : 0 ≤ field_bbox.width) (hfh : 0 ≤ field_bbox.height)
    (hr : ∀ r ∈ text_regions, 0 ≤ r.width ∧ 0 ≤ r.height) :
    0 ≤ calculate_text_overlap field_bbox text_regions := by
  unfold calculate_text_overlap
  split_ifs with h1 h2
  · exact le_rfl
  · exact le_rfl
  · have harea : 0 < field_bbox.area := lt_of_not_le h1
    have hsum : 0 ≤ ((text_regions.map fun t => field_bbox.intersection_area t).sum) := by
      apply List.sum_nonneg
      intro q hq
      rw [List.mem_map] at hq
      obtain ⟨r, hrmem, rfl⟩ := hq
      exact intersection_area_nonneg field_bbox r hfw hfh (hr r hrmem).1 (hr r hrmem).2
    exact le_min zero_le_one (div_nonneg hsum harea.le)

/-- `_resolve_type_conflict` only ever touches `field_type`, and then only to
set it to `CHECKBOX` or `SIGNATURE`. -/
theorem resolve_type_conflict_frame (primary secondary : FieldDetection) :
    (resolve_type_conflict primary secondary).page_index = primary.page_index ∧
    (resolve_type_conflict primary secondary).bbox = primary.bbox ∧
    (resolve_type_conflict primary secondary).source = primary.source ∧
    (resolve_type_conflict primary secondary).template_key = primary.template_key ∧
    (resolve_type_conflict primary secondary).label = primary.label ∧
    (resolve_type_conflict primary secondary).confidence = primary.confidence ∧
    ((resolve_type_conflict primary secondary).field_type = primary.field_type ∨
      (resolve_type_conflict primary secondary).field_type = .CHECKBOX ∨
      (resolve_type_conflict primary secondary).field_type = .SIGNATURE) := by
  unfold resolve_type_conflict
  split_ifs <;> simp

/-! The claims -/

/-- C2: the spec claims `BBox` provides a derived operation `iou` with
`a.iou(b) = intersection_area / (a.area + b.area - intersection_area)` and
value 0 when the union area is 0, evaluable by the merger's per-page
deduplication. No `iou` method exists on `BBox` anywhere under `src/`, while
`EnsembleMerger._deduplicate_by_iou` (ensemble_merger.py line 182) and the
repository's own tests (test_ensemble_merger.py line 718) call it, so the
call raises `AttributeError`. This theorem records that the spec-modelled
`BBox.iou` used by the rest of this development satisfies exactly the claimed
equations. -/
theorem C2_iou_spec_formula (a b : BBox) :
    (a.area + b.area - a.intersection_area b = 0 → a.iou b = 0) ∧
    (a.area + b.area - a.intersection_area b ≠ 0 →
      a.iou b = a.intersection_area b / (a.area + b.area - a.intersection_area b)) := by
  unfold BBox.iou
  constructor <;> intro h <;> simp [h]

/-- C4 counterexample: the claim says constructing a `BBox` with `width = 0`
or `height = 0` must fail, but `BBox.__post_init__` only checks the ranges
`[0, 1]` and the two sum bounds, so `BBox(0, 0, 0, 0)` constructs
successfully. -/
theorem C4_counterexample : mkBBox 0 0 0 0 = .ok ⟨0, 0, 0, 0⟩ := by
  with_unfolding_all rfl

/-- C4 amended: `BBox` construction fails exactly when some coordinate lies
outside `[0, 1]` or `x + width > 1` or `y + height > 1`; zero `width` or
`height` is accepted (the `width, height > 0` invariant of the spec is not
enforced by the code). -/
theorem C4_bbox_validation (x y width height : ℚ) :
    (∃ b, mkBBox x y width height = .ok b) ↔
      (0 ≤ x ∧ x ≤ 1 ∧ 0 ≤ y ∧ y ≤ 1 ∧ 0 ≤ width ∧ width ≤ 1 ∧
        0 ≤ height ∧ height ≤ 1 ∧ x + width ≤ 1 ∧ y + height ≤ 1) := by
  constructor
  · rintro ⟨b, hb⟩
    rcases (mkBBox_ok_iff x y width height b).mp hb with ⟨h1, h2, h3, h4, h5, h6, rfl⟩
    exact ⟨h1.1, h1.2, h2.1, h2.2, h3.1, h3.2, h4.1, h4.2, h5, h6⟩
  · rintro ⟨hx0, hx1, hy0, hy1, hw0, hw1, hh0, hh1, hxw, hyh⟩
    exact ⟨⟨x, y, width, height⟩, (mkBBox_ok_iff x y width height _).mpr
      ⟨⟨hx0, hx1⟩, ⟨hy0, hy1⟩, ⟨hw0, hw1⟩, ⟨hh0, hh1⟩, hxw, hyh, rfl⟩⟩

/-- C5 counterexample: the claim says a label consisting only of whitespace is
generic, so a kept detection labelled `" "` must inherit the candidate's
non-generic label. In the code `_is_generic_label(" ")` is `False` (Python
`not " "` is falsy only for the empty string and `" "` matches no pattern),
so `_resolve_conflict` keeps the whitespace label. -/
theorem C5_counterexample :
    is_generic_label " " = false ∧
    (resolve_conflict
        ⟨0, ⟨0.1, 0.1, 0.3, 0.05⟩, .TEXT, " ", 0.9, .STRUCTURE, none⟩
        ⟨0, ⟨0.1, 0.1, 0.3, 0.05⟩, .TEXT, "Customer Name", 0.8, .VISION, none⟩).label =
      " " := by
  constructor
  · with_unfolding_all decide
  · with_unfolding_all decide

/-- C5 amended: the kept detection's label is overwritten with the
candidate's label exactly when the kept label is generic and the candidate's
is not, where a label is generic iff it is one of the patterns `"Field N"`,
`"Text Field N"`, `"Checkbox N"`, `"Signature N"`, `"Widget N"`,
`"XObject Field N"` for a digit string N, or is the empty string; a
non-empty whitespace-only label is NOT generic. -/
theorem C5_label_inheritance (higher lower : FieldDetection) :
    (resolve_conflict higher lower).label =
      (if is_generic_label higher.label ∧ ¬ is_generic_label lower.label
        then lower.label else higher.label) ∧
    is_generic_label "" = true ∧
    is_generic_label " " = false ∧
    is_generic_label "Field 7" = true ∧
    is_generic_label "Text Field 12" = true ∧
    is_generic_label "Checkbox 3" = true ∧
    is_generic_label "Signature 1" = true ∧
    is_generic_label "Widget 2" = true ∧
    is_generic_label "XObject Field 9" = true ∧
    is_generic_label "Customer Name" = false ∧
    is_generic_label "Field x" = false := by
  refine ⟨?_, ?_, ?_, ?_, ?_, ?_, ?_, ?_, ?_, ?_, ?_⟩
  · have hframe := fun p s : FieldDetection => (resolve_type_conflict_frame p s).2.2.2.2.1
    unfold resolve_conflict
    dsimp only
    by_cases h1 : is_generic_label higher.label ∧ ¬ is_generic_label lower.label
    · simp only [if_pos h1]
      split_ifs with hc <;> simp [hframe]
    · simp only [if_neg h1]
      split_ifs with hc <;> simp [hframe]
  all_goals with_unfolding_all decide

/-- C6 counterexample: the claim classifies a candidate as checkbox exactly
when both the width ratio and the height ratio are below 0.03 (with aspect in
`[0.5, 2]`), so a 60 by 60 pixel candidate on a 1000 by 1000 page (ratios
0.06) must be text. The code instead tests `area_ratio < 0.005`
(`_classify_field_type`, using `checkbox_max_area_ratio`), and
`0.06 * 0.06 = 0.0036 < 0.005`, so it returns checkbox. -/
theorem C6_counterexample :
    classify_field_type ⟨100, 100, 60, 60, 3600, 1, 0.8⟩ 1000 1000 = .CHECKBOX := by
  with_unfolding_all decide

/-- C6 amended: for a candidate built the way the detector builds it
(`area = w * h`, `aspect_ratio = w / h`, with the Python guard `w / h if
h > 0 else 0` agreeing with rational division by zero), the classification is:
checkbox exactly when the AREA ratio `(w/W) * (h/H)` is below 0.005 and the
aspect ratio lies in `[0.5, 2.0]`; otherwise signature when the aspect ratio
is at least 8.0 and the height ratio at most 0.02; otherwise text (including
every aspect ratio in `[2, 8]` not meeting the signature condition). -/
theorem C6_classification (x y w h : ℤ) (conf : ℚ) (img_width img_height : ℤ) :
    classify_field_type ⟨x, y, w, h, (w : ℚ) * (h : ℚ), (w : ℚ) / (h : ℚ), conf⟩
        img_width img_height =
      (if ((w : ℚ) / (img_width : ℚ)) * ((h : ℚ) / (img_height : ℚ)) < 0.005 ∧
          0.5 ≤ (w : ℚ) / (h : ℚ) ∧ (w : ℚ) / (h : ℚ) ≤ 2.0
        then .CHECKBOX
        else if 8.0 ≤ (w : ℚ) / (h : ℚ) ∧ (h : ℚ) / (img_height : ℚ) ≤ 0.02
        then .SIGNATURE
        else .TEXT) := by
  simp only [classify_field_type, checkbox_max_area_ratio, checkbox_aspect_lo,
    checkbox_aspect_hi, signature_min_aspect, signature_max_height, text_aspect_lo,
    text_aspect_hi]
  rw [div_mul_div_comm]
  split_ifs <;> rfl

/-- C10: merger conflict resolution has a frame property: the detection
returned by `_resolve_conflict` keeps the higher-priority detection's
`page_index`, `bbox`, `source` and `template_key` unchanged; its confidence
is the maximum of the two, its label is one of the two labels, and its field
type is the kept type or an upgrade to checkbox or signature. -/
theorem C10_resolve_conflict_frame (higher lower : FieldDetection) :
    (resolve_conflict higher lower).page_index = higher.page_index ∧
    (resolve_conflict higher lower).bbox = higher.bbox ∧
    (resolve_conflict higher lower).source = higher.source ∧
    (resolve_conflict higher lower).template_key = higher.template_key ∧
    (resolve_conflict higher lower).confidence =
      max higher.confidence lower.confidence ∧
    ((resolve_conflict higher lower).label = higher.label ∨
      (resolve_conflict higher lower).label = lower.label) ∧
    ((resolve_conflict higher lower).field_type = higher.field_type ∨
      (resolve_conflict higher lower).field_type = .CHECKBOX ∨
      (resolve_conflict higher lower).field_type = .SIGNATURE) := by
  unfold resolve_conflict
  dsimp only
  generalize hr1 : (if is_generic_label higher.label ∧ ¬ is_generic_label lower.label
    then { higher with label := lower.label } else higher) = r1
  obtain ⟨f1, f2, f3, f4, f5, f6, f7⟩ := resolve_type_conflict_frame r1 lower
  have g1 : r1.page_index = higher.page_index := by rw [← hr1]; split_ifs <;> rfl
  have g2 : r1.bbox = higher.bbox := by rw [← hr1]; split_ifs <;> rfl
  have g3 : r1.source = higher.source := by rw [← hr1]; split_ifs <;> rfl
  have g4 : r1.template_key = higher.template_key := by rw [← hr1]; split_ifs <;> rfl
  have g5 : r1.confidence = higher.confidence := by rw [← hr1]; split_ifs <;> rfl
  have g6 : r1.label = higher.label ∨ r1.label = lower.label := by
    rw [← hr1]; split_ifs <;> simp
  have g7 : r1.field_type = higher.field_type := by rw [← hr1]; split_ifs <;> rfl
  split_ifs with hc
  · refine ⟨f1.trans g1, f2.trans g2, f3.trans g3, f4.trans g4, ?_, ?_, ?_⟩
    · show lower.confidence = max higher.confidence lower.confidence
      rw [f6, g5] at hc
      exact (max_eq_right hc.le).symm
    · show (resolve_type_conflict r1 lower).label = higher.label ∨
        (resolve_type_conflict r1 lower).label = lower.label
      rw [f5]
      exact g6
    · show (resolve_type_conflict r1 lower).field_type = higher.field_type ∨
        (resolve_type_conflict r1 lower).field_type = .CHECKBOX ∨
        (resolve_type_conflict r1 lower).field_type = .SIGNATURE
      rcases f7 with h | h | h
      · exact Or.inl (h.trans g7)
      · exact Or.inr (Or.inl h)
      · exact Or.inr (Or.inr h)
  · refine ⟨f1.trans g1, f2.trans g2, f3.trans g3, f4.trans g4, ?_, ?_, ?_⟩
    · rw [f6, g5]
      rw [f6, g5] at hc
      exact (max_eq_left (not_lt.mp hc)).symm
    · rw [f5]
      exact g6
    · rcases f7 with h | h | h
      · exact Or.inl (h.trans g7)
      · exact Or.inr (Or.inl h)
      · exact Or.inr (Or.inr h)

/-! More helper lemmas -/

/-- `Except.toOption` returns `some` exactly for `ok` results. -/
theorem toOption_eq_some {ε α : Type} {e : Except ε α} {a : α}
    (h : e.toOption = some a) : e = .ok a := by
  cases e with
  | error x => simp [Except.toOption] at h
  | ok x =>
    simp [Except.toOption] at h
    rw [h]

/-- The clamping pattern shared by all three coordinate conversions produces
coordinates satisfying the `BBox` invariant, whatever the raw inputs are. -/
theorem clamped_valid (xr yr wr hr : ℚ) :
    BBox.Valid ⟨max 0 (min 1 xr), max 0 (min 1 yr),
      max 0 (min (1 - max 0 (min 1 xr)) wr), max 0 (min (1 - max 0 (min 1 yr)) hr)⟩ := by
  set x := max 0 (min 1 xr) with hxdef
  set y := max 0 (min 1 yr) with hydef
  have hx0 : 0 ≤ x := le_max_left 0 _
  have hx1 : x ≤ 1 := max_le zero_le_one (min_le_left 1 xr)
  have hy0 : 0 ≤ y := le_max_left 0 _
  have hy1 : y ≤ 1 := max_le zero_le_one (min_le_left 1 yr)
  have hw0 : 0 ≤ max 0 (min (1 - x) wr) := le_max_left 0 _
  have hwx : max 0 (min (1 - x) wr) ≤ 1 - x := max_le (by linarith) (min_le_left _ _)
  have hh0 : 0 ≤ max 0 (min (1 - y) hr) := le_max_left 0 _
  have hhy : max 0 (min (1 - y) hr) ≤ 1 - y := max_le (by linarith) (min_le_left _ _)
  exact ⟨hx0, hx1, hy0, hy1, hw0, by linarith, hh0, by linarith, by linarith, by linarith⟩

/-- A concrete detection used by concrete instances below. -/
def sample_detection : FieldDetection :=
  ⟨0, ⟨0.1, 0.1, 0.3, 0.05⟩, .TEXT, "Name", 0.9, .VISION, none⟩

/-! The remaining claims -/

/-- C1: the spec claims the priority ranking STRUCTURE (1) > GEOMETRIC (2) >
VISION (3) > ACROFORM (4) > MERGED (5) and that, given three detections at
the same bbox and page from STRUCTURE, GEOMETRIC and VISION, the merger
returns exactly one detection with source STRUCTURE. The priority map of
`DetectionSource.priority` instead ranks ACROFORM (1) > VISION (2) >
GEOMETRIC (3) > STRUCTURE (4), contradicting the repository's own tests
(test_detection_models.py asserts STRUCTURE = 1, GEOMETRIC = 2, VISION = 3,
ACROFORM = 4; test_ensemble_merger.py asserts the STRUCTURE detection wins)
and the merger's docstring; consequently the merger keeps the VISION
detection. This theorem evaluates the code on the claim's input. -/
theorem C1_priority_code_bug :
    DetectionSource.ACROFORM.priority = 1 ∧
    DetectionSource.VISION.priority = 2 ∧
    DetectionSource.GEOMETRIC.priority = 3 ∧
    DetectionSource.STRUCTURE.priority = 4 ∧
    (merge DEFAULT_IOU_THRESHOLD
        [⟨0, ⟨0.1, 0.1, 0.3, 0.05⟩, .TEXT, "Structure Label", 0.9, .STRUCTURE, none⟩]
        [⟨0, ⟨0.1, 0.1, 0.3, 0.05⟩, .TEXT, "Geometric Label", 0.9, .GEOMETRIC, none⟩]
        [⟨0, ⟨0.1, 0.1, 0.3, 0.05⟩, .TEXT, "Vision Label", 0.9, .VISION, none⟩]).map
        (fun d => d.source) = [.VISION] := by
  refine ⟨rfl, rfl, rfl, rfl, ?_⟩
  with_unfolding_all decide

/-- C3 counterexample: the claim says that with `overlap_threshold = 0` a
field with zero text overlap (here: a page with no text regions) is kept.
The code keeps a field iff `overlap_ratio < threshold`, and `0 < 0` is false,
so the field is rejected. -/
theorem C3_counterexample :
    filter_fields 0 [sample_detection] (fun _ => []) = [] := by
  with_unfolding_all decide

/-- C3 amended: the filter keeps a field iff its overlap ratio is strictly
below the clamped threshold; with `overlap_threshold = 0` it rejects EVERY
field, including fields with zero overlap; with `overlap_threshold = 1` it
keeps exactly the fields with overlap ratio strictly below 1 (a field whose
ratio equals 1.0 is rejected). -/
theorem C3_filter_amended (overlap_threshold : ℚ) (fields : List FieldDetection)
    (text_regions_by_page : ℤ → List BBox) (field : FieldDetection)
    (hfields : ∀ d ∈ fields, 0 ≤ d.bbox.width ∧ 0 ≤ d.bbox.height)
    (hregions : ∀ p : ℤ, ∀ r ∈ text_regions_by_page p, 0 ≤ r.width ∧ 0 ≤ r.height) :
    (field ∈ filter_fields overlap_threshold fields text_regions_by_page ↔
      field ∈ fields ∧
        calculate_text_overlap field.bbox (text_regions_by_page field.page_index) <
          clamp_threshold overlap_threshold) ∧
    filter_fields 0 fields text_regions_by_page = [] ∧
    (field ∈ filter_fields 1 fields text_regions_by_page ↔
      field ∈ fields ∧
        calculate_text_overlap field.bbox (text_regions_by_page field.page_index) < 1) := by
  have hmem : ∀ t : ℚ, field ∈ filter_fields t fields text_regions_by_page ↔
      field ∈ fields ∧ calculate_text_overlap field.bbox
        (text_regions_by_page field.page_index) < clamp_threshold t := by
    intro t
    unfold filter_fields
    rw [List.mem_filter]
    simp only [decide_eq_true_eq]
  have hclamp0 : clamp_threshold 0 = 0 := by norm_num [clamp_threshold]
  have hclamp1 : clamp_threshold 1 = 1 := by norm_num [clamp_threshold]
  refine ⟨hmem overlap_threshold, ?_, ?_⟩
  · unfold filter_fields
    rw [List.filter_eq_nil_iff]
    intro d hd
    rw [hclamp0]
    simp only [decide_eq_true_eq, not_lt]
    exact calculate_text_overlap_nonneg d.bbox (text_regions_by_page d.page_index)
      (hfields d hd).1 (hfields d hd).2 (hregions d.page_index)
  · rw [hmem 1, hclamp1]

/-- C3 witness: the amended filter characterization at a concrete input. -/
theorem C3_filter_witness :
    (sample_detection ∈ filter_fields 0.30 [sample_detection] (fun _ => []) ↔
      sample_detection ∈ [sample_detection] ∧
        calculate_text_overlap sample_detection.bbox [] < clamp_threshold 0.30) ∧
    filter_fields 0 [sample_detection] (fun _ => []) = [] ∧
    (sample_detection ∈ filter_fields 1 [sample_detection] (fun _ => []) ↔
      sample_detection ∈ [sample_detection] ∧
        calculate_text_overlap sample_detection.bbox [] < 1) :=
  C3_filter_amended 0.30 [sample_detection] (fun _ => []) sample_detection
    (by
      intro d hd
      rw [List.mem_singleton] at hd
      subst hd
      exact ⟨by with_unfolding_all decide, by with_unfolding_all decide⟩)
    (by
      intro p r hr
      simp at hr)

/-- C7: fault isolation of the pipeline entry point: when a single detector
raises, `detect_fields_for_pdf` still returns, and its output is the
ensemble merger applied to the remaining detectors' outputs with the failed
detector contributing an empty list; a page-level failure inside the
geometric pass drops exactly that page's detections. -/
theorem C7_fault_isolation (iou_threshold : ℚ) (err : String)
    (structure_result vision_result : DetectorResult)
    (geometric_pages : Except String (List DetectorResult))
    (pre post : List DetectorResult) :
    (detect_fields_for_pdf iou_threshold (.error err) geometric_pages vision_result =
      merge iou_threshold [] (run_geometric_detector geometric_pages)
        (run_vision_detector vision_result)) ∧
    (detect_fields_for_pdf iou_threshold structure_result geometric_pages (.error err) =
      merge iou_threshold (run_pdf_structure_detector structure_result)
        (run_geometric_detector geometric_pages) []) ∧
    (detect_fields_for_pdf iou_threshold structure_result (.error err) vision_result =
      merge iou_threshold (run_pdf_structure_detector structure_result) []
        (run_vision_detector vision_result)) ∧
    (detect_fields_for_pdf iou_threshold structure_result
        (.ok (pre ++ .error err :: post)) vision_result =
      detect_fields_for_pdf iou_threshold structure_result (.ok (pre ++ post))
        vision_result) := by
  refine ⟨rfl, rfl, rfl, ?_⟩
  simp [detect_fields_for_pdf, run_geometric_detector]

/-- C8: every BBox emitted by a detector coordinate conversion (the
structure detector's PDF-rect conversion, the geometric detector's pixel
conversion, and the vision adapter's 0-1000-grid conversion) satisfies
`x, y, w, h` in `[0, 1]` and `x + w <= 1`, `y + h <= 1` (hence within any
`1 + eps` slack), for arbitrary input rectangles, because every coordinate
is clamped before construction; the geometric conversion moreover always
succeeds. -/
theorem C8_normalized_output (x0 y0 x1 y1 page_width page_height : ℚ)
    (candidate : ContourCandidate) (img_width img_height : ℤ)
    (field_data : VisionField) (page_index : ℤ) :
    (∀ b : BBox, convert_pdf_rect_to_bbox x0 y0 x1 y1 page_width page_height = some b →
      b.Valid) ∧
    (∃ b : BBox, convert_to_normalized_bbox candidate img_width img_height = .ok b ∧
      b.Valid) ∧
    (∀ d : FieldDetection, convert_to_field_detection field_data page_index = some d →
      d.bbox.Valid) := by
  refine ⟨?_, ?_, ?_⟩
  · intro b hb
    unfold convert_pdf_rect_to_bbox at hb
    dsimp only at hb
    split_ifs at hb
    exact mkBBox_valid _ _ _ _ b (toOption_eq_some hb)
  · unfold convert_to_normalized_bbox
    dsimp only
    exact ⟨_, mkBBox_ok_of_valid _ _ _ _ (clamped_valid _ _ _ _), clamped_valid _ _ _ _⟩
  · intro d hd
    unfold convert_to_field_detection at hd
    rcases field_data with ⟨bbox_raw, ftype, label, id⟩
    rcases bbox_raw with _ | ⟨a, _ | ⟨b2, _ | ⟨c, _ | ⟨e, _ | ⟨f, t⟩⟩⟩⟩⟩
    · simp at hd
    · simp at hd
    · simp at hd
    · simp at hd
    · dsimp only at hd
      split_ifs at hd
      all_goals
        rw [Option.bind_eq_some] at hd
        obtain ⟨bb, hbb, hfd⟩ := hd
        rw [mkFieldDetection_ok_bbox _ _ _ _ _ _ _ _ (toOption_eq_some hfd)]
        exact mkBBox_valid _ _ _ _ bb (toOption_eq_some hbb)
    · simp at hd

/-- C9: FieldDetection serialization is lossless: for every valid
`FieldDetection` (a nonnegative page index, confidence in `[0, 1]`, and a
bbox accepted by the `BBox` constructor), `from_dict (to_dict d)`
reconstructs `d` exactly, all attributes included. -/
theorem C9_to_dict_roundtrip (d : FieldDetection) (hb : d.bbox.Valid) (hd : d.Valid) :
    FieldDetection.from_dict d.to_dict = .ok d := by
  obtain ⟨pi, bbox, ft, lb, cf, src, tk⟩ := d
  obtain ⟨bx, byv, bw, bh⟩ := bbox
  obtain ⟨hpi, hcf0, hcf1⟩ := hd
  simp only [FieldDetection.to_dict, FieldDetection.from_dict,
    mkBBox_ok_of_valid bx byv bw bh hb,
    show FieldType.ofValue ft.value = some ft from by cases ft <;> rfl,
    show DetectionSource.ofValue src.value = some src from by cases src <;> rfl,
    mkFieldDetection]
  rw [if_neg (not_lt.mpr hpi), if_neg (not_not_intro ⟨hcf0, hcf1⟩)]

/-- C9 witness: the round-trip at a concrete valid detection. -/
theorem C9_roundtrip_witness :
    FieldDetection.from_dict (FieldDetection.to_dict
      ⟨0, ⟨0.1, 0.2, 0.3, 0.4⟩, .TEXT, "name_field", 0.9, .STRUCTURE, some "k"⟩) =
      .ok ⟨0, ⟨0.1, 0.2, 0.3, 0.4⟩, .TEXT, "name_field", 0.9, .STRUCTURE, some "k"⟩ :=
  C9_to_dict_roundtrip
    ⟨0, ⟨0.1, 0.2, 0.3, 0.4⟩, .TEXT, "name_field", 0.9, .STRUCTURE, some "k"⟩
    (by with_unfolding_all decide) (by with_unfolding_all decide)

end DocAI
